import Mathlib

/-!
Verification development for the Document-chatbot repository
(src/local/ingest.py and src/local/api_server.py).

Strings are modelled as `List Char`; Python floats (relevance scores) are
modelled as rationals; machine-level float rounding is not load-bearing for
any of the properties below.  Network services (embedding, search index,
completion, blob store) are modelled as oracles passed in explicitly: an
`Except (List Char) α` value stands for one call that either returns `α` or
raises an exception whose `str()` is the carried message.
-/

/-- Python `str.isspace` on the ASCII whitespace characters stripped by
`str.strip()` (space, tab, newline, carriage return, vertical tab, form
feed).  -/
def pyIsSpace (c : Char) : Bool :=
  c = ' ' || c = '\t' || c = '\n' || c = '\x0d' || c = '\x0b' || c = '\x0c'

/-- Python `str.strip()`: drop leading and trailing whitespace. -/
def pyStrip (s : List Char) : List Char :=
  ((s.dropWhile pyIsSpace).reverse.dropWhile pyIsSpace).reverse

/-- One step of the `while start < n` loop of `split_text`
(src/local/ingest.py lines 63-71), with an explicit fuel parameter because
the Python loop does not terminate for every parameter choice (see the C7
claim).  `chunk = text[start:end]` is `(t.drop start).take (end - start)`;
`start = end - overlap; if start < 0: start = 0` is truncated subtraction. -/
def splitLoopFuel (fuel : Nat) (t : List Char) (size overlap : Nat) (start : Nat) :
    List (List Char) :=
  match fuel with
  | 0 => []
  | f + 1 =>
    if start < t.length then
      let e := min (start + size) t.length
      let chunk := (t.drop start).take (e - start)
      if e = t.length then [chunk]
      else chunk :: splitLoopFuel f t size overlap (e - overlap)
    else []

/-- `split_text` from src/local/ingest.py lines 56-72: strip the input,
return `[]` when empty, otherwise run the sliding-window loop.  Fuel
`t.length` suffices for the loop whenever it terminates at all, because
`start` strictly increases on every non-final iteration (and the loop
guard needs `start < t.length`). -/
def split_text (text : List Char) (size overlap : Nat) : List (List Char) :=
  let t := pyStrip text
  if t.isEmpty then [] else splitLoopFuel t.length t size overlap 0

/-- Reference sliding-window definition, written from the words of the
spec (section 4.1): each window has length `size` except possibly the
final one, which is truncated to the remaining text and ends exactly at
the text end; the next window starts at `end - overlap`, i.e. the
remaining suffix advances by `size - overlap` characters.  Requires the
documented precondition `0 < size - overlap` for termination. -/
def refWindows (size step : Nat) (h : 0 < step) (rem : List Char) :
    List (List Char) :=
  if _hle : rem.length ≤ size then [rem]
  else rem.take size :: refWindows size step h (rem.drop step)
termination_by rem.length
decreasing_by simp only [List.length_drop]; omega

/-- The spec chunker contract (section 4.1): trim, empty input gives the
empty sequence, otherwise emit the sliding windows of `refWindows`. -/
def refSplit (text : List Char) (size overlap : Nat) (h : overlap < size) :
    List (List Char) :=
  let t := pyStrip text
  if t.isEmpty then [] else refWindows size (size - overlap) (by omega) t

/-- Trace of one run of `get_embedding` from src/local/ingest.py lines
45-54: the final result, the number of calls made to the embedding
service, and the sleeps performed between attempts, in tenths of a second
(`time.sleep(0.6 * (attempt + 1))` becomes `6 * (attempt + 1)`). -/
structure EmbedRun (ε α : Type) where
  result : Except ε α
  calls : Nat
  sleeps : List Nat

/-- `get_embedding` from src/local/ingest.py lines 45-54, the
`for attempt in range(3)` loop unrolled for its fixed bound 3.  `svc k`
is the outcome of the k-th call to
`embedding_client.embeddings.create`.  A successful attempt returns at
once; a failed attempt sleeps `0.6 * (attempt + 1)` seconds and retries,
except that the failure of the third attempt (attempt index 2) is
re-raised without sleeping. -/
def get_embedding_run {ε α : Type} (svc : Nat → Except ε α) : EmbedRun ε α :=
  match svc 0 with
  | .ok v => ⟨.ok v, 1, []⟩
  | .error _ =>
    match svc 1 with
    | .ok v => ⟨.ok v, 2, [6]⟩
    | .error _ =>
      match svc 2 with
      | .ok v => ⟨.ok v, 3, [6, 12]⟩
      | .error e => ⟨.error e, 3, [6, 12]⟩

/-- A search hit as consumed by `answer_with_gpt` (src/local/api_server.py):
a JSON object read with `d.get(key, default)`, so every field is optional.
`page` is modelled by its string rendering (the code only interpolates it
into strings); the relevance score `@search.score` is a rational. -/
structure Doc where
  file : Option (List Char)
  folder : Option (List Char)
  page : Option (List Char)
  url : Option (List Char)
  chunk : Option (List Char)
  score : Option ℚ

/-- The argument `docs` of `answer_with_gpt`: either the list parsed from
the `value` field of the search response, or the error sentinel dict
`{"error": r.text, "status_code": r.status_code}` built in `search_docs`
(src/local/api_server.py line 80). -/
inductive SearchResult where
  | hits : List Doc → SearchResult
  | errorDict : List Char → Nat → SearchResult

/-- Python `len` applied to the value returned by `search_docs`
(src/local/api_server.py line 175): the length of the hit list, or, for
the sentinel, the number of keys of the dict `{"error": ..,
"status_code": ..}`, which is 2. -/
def pyLen : SearchResult → Nat
  | .hits l => l.length
  | .errorDict _ _ => 2

/-- Python `int()` on a rational: truncation toward zero. -/
def pyInt (q : ℚ) : ℤ :=
  if 0 ≤ q then ⌊q⌋ else ⌈q⌉

/-- Python `max(d.get("@search.score", 0) for d in docs)`; only applied to
non-empty `docs` in the source (the `[]` case is unreachable there). -/
def maxScore (docs : List Doc) : ℚ :=
  match docs.map (fun d => d.score.getD 0) with
  | [] => 0
  | x :: xs => xs.foldl max x

/-- `max(...) or 1` (src/local/api_server.py line 152): Python `or`
replaces a falsy value, and the only falsy rational is 0. -/
def maxScoreOr1 (docs : List Doc) : ℚ :=
  if maxScore docs = 0 then 1 else maxScore docs

/-- `docs[0].get("@search.score", 0)` (src/local/api_server.py line 153);
only applied to non-empty `docs` in the source. -/
def rawScore (docs : List Doc) : ℚ :=
  match docs with
  | [] => 0
  | d :: _ => d.score.getD 0

/-- `confidence = int((raw_score / max_score) * 100)`
(src/local/api_server.py line 154). -/
def confidenceOf (docs : List Doc) : ℤ :=
  pyInt (rawScore docs / maxScoreOr1 docs * 100)

/-- One labelled context block (src/local/api_server.py lines 108-114):
`f"[Source: \x7bfolder\x7d/\x7bfile\x7d | Page \x7bpage\x7d]\n\x7bchunk_text\x7d"`
with the chunk text truncated to its first 1200 characters. -/
def sourceBlock (d : Doc) : List Char :=
  ("[Source: ").data ++ d.folder.getD [] ++ [ '/' ] ++ d.file.getD []
    ++ (" | Page ").data ++ d.page.getD [] ++ ("]\n").data
    ++ (d.chunk.getD []).take 1200

/-- The instruction block of the user prompt
(src/local/api_server.py lines 118-132). -/
def promptInstructions : List Char :=
  ("You MUST ONLY use the provided context below to answer.\nDo NOT use any external knowledge or training data.\nIf the context does not contain the answer, you MUST say \u0027I could not find this information in the provided document.\u0027\n\n⚠️ IMPORTANT INSTRUCTIONS:\n- Only use document chunks that explicitly match the product or model mentioned in the question (e.g., AP150 Mega Post). Ignore other documents even if they look similar.\n- Present the answer in a CLEARLY STRUCTURED FORMAT.\n- Use numbered headings for major categories (1., 2., 3., ...).\n- Under each heading, use bullet points (-) for details.\n- Bold important terms (like \"Clearance\", \"Step Ladder 60°\", \"200mm\").\n- Always include measurement units (mm, m, MPa) after numeric values.\n- Do NOT merge everything into one long list.\n- Do NOT add an extra summary at the end. Only the structured list.\n- If multiple chunks give conflicting values (e.g., 25 MPa vs 32 MPa), explicitly state the differences.\n\n").data

/-- The full user prompt of the grounded branch
(src/local/api_server.py line 133). -/
def mainPrompt (context query : List Char) : List Char :=
  promptInstructions ++ ("Context:\n").data ++ context
    ++ ("\n\nQuestion: ").data ++ query
    ++ ("\n\nAnswer based ONLY on the context above:").data

/-- The user prompt of the empty-hits branch
(src/local/api_server.py line 93). -/
def noDocsPrompt (query : List Char) : List Char :=
  ("No relevant documents found. Still answer concisely if you can.\n\nQuestion: ").data
    ++ query

/-- System message of the empty-hits branch. -/
def sysHelpful : List Char := ("You are a helpful assistant.").data

/-- System message of the grounded branch. -/
def sysPrecise : List Char := ("You are a precise assistant.").data

/-- The reference dict built from the first hit
(src/local/api_server.py lines 158-163). -/
structure Reference where
  file : List Char
  folder : List Char
  page : List Char
  url : List Char

/-- Result of `answer_with_gpt`, extended with two pieces of trace needed
by the spec claims: `chatCalls`, the number of calls made to the
completion service, and `context`, the grounding context assembled
(`[]` on the branches that assemble none). -/
structure ComposeResult where
  answer : List Char
  reference : Option Reference
  confidence : ℤ
  chatCalls : Nat
  context : List Char

/-- The message of the `TypeError` raised by slicing a dict
(`docs[:8]` when `docs` is the sentinel dict whose truthiness check was
passed because its error text is empty). -/
def typeErrorMsg : List Char := ("TypeError: unhashable type: slice").data

/-- `answer_with_gpt` from src/local/api_server.py lines 83-165.  `chat`
is the completion-service oracle, taking the system and user messages and
returning the completion content or raising.  The guard
`if not docs or (isinstance(docs, dict) and docs.get("error"))` is
truthiness-based: the sentinel dict is never empty (it always has its two
keys), so for a sentinel the guard holds exactly when the error text is
non-empty; a sentinel with empty error text falls through to `docs[:8]`,
which raises TypeError on a dict. -/
def answer_with_gpt (chat : List Char → List Char → Except (List Char) (List Char))
    (query : List Char) (docs : SearchResult) : Except (List Char) ComposeResult :=
  match docs with
  | .errorDict e _ =>
    if e = [] then .error typeErrorMsg
    else .ok ⟨("Azure Search Error: ").data ++ e, none, 0, 0, []⟩
  | .hits [] =>
    match chat sysHelpful (noDocsPrompt query) with
    | .error err => .error err
    | .ok ans => .ok ⟨ans, none, 0, 1, []⟩
  | .hits (d :: ds) =>
    match chat sysPrecise (mainPrompt
        (List.intercalate (("\n\n").data) (((d :: ds).take 8).map sourceBlock))
        query) with
    | .error err => .error err
    | .ok ans =>
      .ok ⟨ans,
           some ⟨d.file.getD [], d.folder.getD [], d.page.getD [], d.url.getD []⟩,
           confidenceOf (d :: ds), 1,
           List.intercalate (("\n\n").data) (((d :: ds).take 8).map sourceBlock)⟩

/-- The HTTP response of one `requests.post` to the search index, as far
as the code observes it: the status code, the raw body text `r.text`, the
parsed `value` list (`none` when `r.json()` would raise), and the
messages of the exceptions `r.raise_for_status()` / `r.json()` would
raise. -/
structure HTTPResp where
  status : Nat
  text : List Char
  jsonValues : Option (List Doc)
  httpErrMsg : List Char
  jsonErrMsg : List Char

/-- `search_docs` from src/local/api_server.py lines 53-80.  `embed` is
the one (unretried) `get_embedding` call of the api server (lines 49-51),
`post` the `requests.post` call; either may raise, and those exceptions
propagate.  `raise_for_status` raises `HTTPError` exactly for statuses in
[400, 600); that exception is the only one the `except` clause catches,
producing the sentinel dict; a JSON decode failure is not an `HTTPError`
and propagates. -/
def search_docs (embed : Except (List Char) (List ℚ))
    (post : Except (List Char) HTTPResp) : Except (List Char) SearchResult :=
  match embed with
  | .error e => .error e
  | .ok _ =>
    match post with
    | .error e => .error e
    | .ok r =>
      if 400 ≤ r.status ∧ r.status < 600 then
        .ok (SearchResult.errorDict r.text r.status)
      else
        match r.jsonValues with
        | some vals => .ok (SearchResult.hits vals)
        | none => .error r.jsonErrMsg

/-- The body returned by the `/ask` route (src/local/api_server.py lines
171-177): the composer result plus `hits = len(docs)` and
`markdown = True`. -/
structure AskResp where
  answer : List Char
  reference : Option Reference
  confidence : ℤ
  hits : Nat
  markdown : Bool
  context : List Char

/-- The `/ask` route handler (src/local/api_server.py lines 171-177).
Any exception escaping `search_docs` or `answer_with_gpt` escapes the
handler (FastAPI then produces a 500 with none of the answer fields). -/
def ask (embed : Except (List Char) (List ℚ)) (post : Except (List Char) HTTPResp)
    (chat : List Char → List Char → Except (List Char) (List Char))
    (query : List Char) : Except (List Char) AskResp :=
  match search_docs embed post with
  | .error e => .error e
  | .ok docs =>
    match answer_with_gpt chat query docs with
    | .error e => .error e
    | .ok r => .ok ⟨r.answer, r.reference, r.confidence, pyLen docs, true, r.context⟩

/-- ASCII lower-casing of one character, as `str.lower()` acts on the
ASCII range. -/
def toLowerChar (c : Char) : Char :=
  if 'A' ≤ c ∧ c ≤ 'Z' then Char.ofNat (c.toNat + 32) else c

/-- `b.name.lower().endswith(".pdf")` (src/local/api_server.py line 186). -/
def endsWithPdf (s : List Char) : Bool :=
  (".pdf").data.isSuffixOf (s.map toLowerChar)

/-- `os.path.basename` on a posix path: the segment after the last
slash. -/
def basename (s : List Char) : List Char :=
  s.foldl (fun acc c => if c = '/' then [] else acc ++ [c]) []

/-- One hexadecimal digit, upper case, as `urllib.parse.quote` emits. -/
def hexDigit (n : Nat) : Char :=
  if n < 10 then Char.ofNat (48 + n) else Char.ofNat (55 + n)

/-- UTF-8 encoding of one character, byte by byte. -/
def utf8Bytes (c : Char) : List Nat :=
  let n := c.toNat
  if n < 128 then [n]
  else if n < 2048 then [192 + n / 64, 128 + n % 64]
  else if n < 65536 then [224 + n / 4096, 128 + n / 64 % 64, 128 + n % 64]
  else [240 + n / 262144, 128 + n / 4096 % 64, 128 + n / 64 % 64, 128 + n % 64]

/-- Characters `urllib.parse.quote` leaves unencoded with its default
`safe` parameter: ASCII alphanumerics, `_`, `.`, `-`, `~` and `/`. -/
def quoteKeeps (c : Char) : Bool :=
  c.isAlphanum || c = '_' || c = '.' || c = '-' || c = '~' || c = '/'

/-- `urllib.parse.quote(name)` (src/local/api_server.py line 191 and
src/local/ingest.py line 76): percent-encode the UTF-8 bytes of every
character outside the safe set. -/
def pyQuote (s : List Char) : List Char :=
  (s.map (fun c =>
    if quoteKeeps c then [c]
    else (utf8Bytes c).foldr
      (fun b acc => '%' :: hexDigit (b / 16) :: hexDigit (b % 16) :: acc) [])).flatten

/-- A blob as enumerated by `cont.list_blobs()`: its full name and
size. -/
structure Blob where
  name : List Char
  size : Nat

/-- One entry of the `pdfs` list built by `list_cloud_pdfs`
(src/local/api_server.py lines 187-192). -/
structure PdfItem where
  name : List Char
  full_path : List Char
  size : Nat
  url : List Char

/-- The body returned by `/list-cloud-pdfs`: either
`{"pdfs": items, "count": len(items)}` (no error key, modelled as
`error = none`), or `{"error": str(e), "pdfs": [], "count": 0}`. -/
structure ListResp where
  error : Option (List Char)
  pdfs : List PdfItem
  count : Nat

/-- The blob URL assembled at src/local/api_server.py line 191. -/
def blobUrl (account container name : List Char) : List Char :=
  ("https://").data ++ account ++ (".blob.core.windows.net/").data
    ++ container ++ [ '/' ] ++ pyQuote name

/-- `list_cloud_pdfs` (src/local/api_server.py lines 179-195).  `blobs`
is the oracle for the whole blob-service interaction (client
construction plus enumeration); the entire body sits inside
`try/except Exception`, so any failure becomes the
`{"error": str(e), "pdfs": [], "count": 0}` body. -/
def list_cloud_pdfs (account container : List Char)
    (blobs : Except (List Char) (List Blob)) : ListResp :=
  match blobs with
  | .error e => ⟨some e, [], 0⟩
  | .ok bs =>
    let items := (bs.filter (fun b => endsWithPdf b.name)).map
      (fun b => PdfItem.mk (basename b.name) b.name b.size
        (blobUrl account container b.name))
    ⟨none, items, items.length⟩

/-- One entry of the `pages` list built by `inspect_pdf`
(src/local/api_server.py line 208): `v.get("page")` has no default
(`none` when absent), the preview is the first 200 characters of the
chunk followed by a literal ellipsis. -/
structure Page where
  page : Option (List Char)
  preview : List Char
  url : List Char

/-- The body returned by `/inspect/...`: the success shape has no error
key (`error = none`); the caught-failure shape is
`{"error": str(e), "pdf_name": .., "total_pages": 0, "pages": []}`. -/
structure InspectResp where
  pdf_name : List Char
  total_pages : Nat
  pages : List Page
  error : Option (List Char)

/-- `inspect_pdf` (src/local/api_server.py lines 197-211).  The
`requests.post` call at line 204 sits OUTSIDE the `try` block, so an
exception it raises propagates out of the handler; only
`raise_for_status()` and the JSON handling at lines 206-209 are guarded
by `except Exception`. -/
def inspect_pdf (post : Except (List Char) HTTPResp)
    (pdf_name : List Char) : Except (List Char) InspectResp :=
  match post with
  | .error e => .error e
  | .ok r =>
    if 400 ≤ r.status ∧ r.status < 600 then
      .ok ⟨pdf_name, 0, [], some r.httpErrMsg⟩
    else
      match r.jsonValues with
      | none => .ok ⟨pdf_name, 0, [], some r.jsonErrMsg⟩
      | some vals =>
        let pages := vals.map (fun v =>
          Page.mk v.page ((v.chunk.getD []).take 200 ++ ("...").data)
            (v.url.getD []))
        .ok ⟨pdf_name, pages.length, pages, none⟩

/-- A completion oracle that always answers; used as a concrete input in
witnesses and counterexamples. -/
def chatOK : List Char → List Char → Except (List Char) (List Char) :=
  fun _ _ => .ok (("answer").data)

/-- An embedding oracle that succeeds; concrete input for witnesses. -/
def embedOK : Except (List Char) (List ℚ) := .ok []

/-- A successful, well-formed search response with no hits. -/
def postOK : Except (List Char) HTTPResp :=
  .ok ⟨200, ("ok").data, some [], ("http error").data, ("json error").data⟩

/-- A failed search response whose body text is empty: `raise_for_status`
raises, `search_docs` catches it and builds the sentinel
`{"error": "", "status_code": 500}`. -/
def postErrEmptyText : Except (List Char) HTTPResp :=
  .ok ⟨500, [], none, ("http error").data, ("json error").data⟩

/-- A failed search response with a non-empty body text. -/
def postErr500 : Except (List Char) HTTPResp :=
  .ok ⟨500, ("server error").data, none, ("http error").data, ("json error").data⟩

/-- A failed search response record with a non-empty body, used directly. -/
def respErr500 : HTTPResp :=
  ⟨500, ("server error").data, none, ("http msg").data, ("json msg").data⟩

/-- A hit with no fields except a zero relevance score. -/
def docZero : Doc := ⟨none, none, none, none, none, some 0⟩

/-- A hit carrying only a relevance score. -/
def docScore (q : ℚ) : Doc := ⟨none, none, none, none, none, some q⟩

/-- Two hits with scores 2 and 3: the first-ranked hit does not carry the
maximum score, so rounding and truncation of `2/3 * 100` differ. -/
def docsTwoThree : List Doc := [docScore 2, docScore 3]

/-- An embedding-service oracle whose first call fails and whose later
calls return the vector 42; concrete input for the retry witness. -/
def svcFailThenOk : Nat → Except (List Char) Nat :=
  fun k => if k = 0 then .error (("fail").data) else .ok 42

/-- The code loop agrees with the reference windows when started anywhere
inside the text, provided the fuel covers the remaining length and the
overlap is smaller than the window size. -/
theorem splitLoopFuel_eq_refWindows (t : List Char) (size overlap : Nat)
    (hs : 0 < size) (ho : overlap < size) :
    ∀ fuel start, t.length ≤ start + fuel → start < t.length →
      splitLoopFuel fuel t size overlap start
        = refWindows size (size - overlap) (by omega) (t.drop start) := by
  intro fuel
  induction fuel with
  | zero => intro start h1 h2; omega
  | succ f ih =>
    intro start h1 h2
    rw [splitLoopFuel, if_pos h2, refWindows]
    by_cases he : min (start + size) t.length = t.length
    · have hrem : (t.drop start).length ≤ size := by
        simp only [List.length_drop]; omega
      rw [dif_pos hrem]
      have htake : (t.drop start).take (t.length - start) = t.drop start := by
        apply List.take_of_length_le
        simp only [List.length_drop, le_refl]
      rw [he, if_pos rfl, htake]
    · have hlt : start + size < t.length := by omega
      have hrem : ¬ (t.drop start).length ≤ size := by
        simp only [List.length_drop]; omega
      rw [dif_neg hrem]
      have hmin : min (start + size) t.length = start + size := by omega
      have hne : ¬ min (start + size) t.length = t.length := he
      rw [if_neg hne]
      have hchunk : (t.drop start).take (min (start + size) t.length - start)
          = (t.drop start).take size := by
        rw [hmin]
        congr 1
        omega
      have hstep : min (start + size) t.length - overlap
          = start + (size - overlap) := by omega
      rw [hchunk, hstep,
        ih (start + (size - overlap)) (by omega) (by omega)]
      rw [List.drop_drop, Nat.add_comm start (size - overlap)]

/-- Helper: the sentinel branch of `answer_with_gpt` for a non-empty
error text. -/
theorem answer_with_gpt_errorDict
    (chat : List Char → List Char → Except (List Char) (List Char))
    (query e : List Char) (code : Nat) (h : e ≠ []) :
    answer_with_gpt chat query (SearchResult.errorDict e code)
      = .ok ⟨("Azure Search Error: ").data ++ e, none, 0, 0, []⟩ := by
  simp only [answer_with_gpt]
  rw [if_neg h]

/-- Helper: the empty-hits branch of `answer_with_gpt`. -/
theorem answer_with_gpt_nil
    (chat : List Char → List Char → Except (List Char) (List Char))
    (query a : List Char) (ha : chat sysHelpful (noDocsPrompt query) = .ok a) :
    answer_with_gpt chat query (SearchResult.hits []) = .ok ⟨a, none, 0, 1, []⟩ := by
  simp only [answer_with_gpt]
  rw [ha]

/-- Helper: the grounded branch of `answer_with_gpt` when the completion
call succeeds. -/
theorem answer_with_gpt_cons
    (chat : List Char → List Char → Except (List Char) (List Char))
    (query : List Char) (d : Doc) (ds : List Doc) (a : List Char)
    (ha : chat sysPrecise (mainPrompt
        (List.intercalate (("\n\n").data) (((d :: ds).take 8).map sourceBlock))
        query) = .ok a) :
    answer_with_gpt chat query (SearchResult.hits (d :: ds))
      = .ok ⟨a,
             some ⟨d.file.getD [], d.folder.getD [], d.page.getD [], d.url.getD []⟩,
             confidenceOf (d :: ds), 1,
             List.intercalate (("\n\n").data) (((d :: ds).take 8).map sourceBlock)⟩ := by
  simp only [answer_with_gpt]
  rw [ha]

/-- C1: for size > 0 and overlap < size, `split_text` trims its input,
maps empty trimmed input to the empty sequence, and otherwise equals the
reference sliding-window definition of the spec; in particular
`split("ABCDEFGHIJ", size=4, overlap=1)` is `["ABCD","DEFG","GHIJ"]`. -/
theorem C1_split_matches_reference (text : List Char) (size overlap : Nat)
    (hs : 0 < size) (ho : overlap < size) :
    split_text text size overlap = refSplit text size overlap ho
    ∧ split_text (("ABCDEFGHIJ").data) 4 1
        = [("ABCD").data, ("DEFG").data, ("GHIJ").data] := by
  constructor
  · unfold split_text refSplit
    by_cases hE : (pyStrip text).isEmpty
    · simp only [hE, if_pos]
    · simp only [hE, Bool.false_eq_true, if_neg, if_false]
      have hn : 0 < (pyStrip text).length := by
        cases h' : pyStrip text with
        | nil => rw [h'] at hE; simp at hE
        | cons c cs => simp [h']
      have h := splitLoopFuel_eq_refWindows (pyStrip text) size overlap hs ho
        (pyStrip text).length 0 (by omega) hn
      rw [List.drop_zero] at h
      exact h
  · decide

/-- Witness for C1 at text "ABCDEFGHIJ", size 4, overlap 1. -/
theorem C1_split_matches_reference_witness :
    split_text (("ABCDEFGHIJ").data) 4 1
      = refSplit (("ABCDEFGHIJ").data) 4 1 (by omega)
    ∧ split_text (("ABCDEFGHIJ").data) 4 1
        = [("ABCD").data, ("DEFG").data, ("GHIJ").data] :=
  C1_split_matches_reference (("ABCDEFGHIJ").data) 4 1 (by omega) (by omega)

/-- C7: for overlap < size the loop stabilises once the fuel reaches the
trimmed length (i.e. the Python loop terminates), and each non-final
iteration advances the window start by the positive amount
size - overlap; the precondition is not checked at runtime, and for
overlap = size the loop state repeats forever (the fuel-indexed loop at
size = overlap = 1 on "AB" produces `fuel` copies of "A" and never
stabilises). -/
theorem C7_split_terminates (text : List Char) (size overlap : Nat)
    (hs : 0 < size) (ho : overlap < size) :
    (∀ fuel, (pyStrip text).length ≤ fuel →
        splitLoopFuel fuel (pyStrip text) size overlap 0
          = split_text text size overlap)
    ∧ 0 < size - overlap
    ∧ (∀ fuel start, start + size < (pyStrip text).length →
        splitLoopFuel (fuel + 1) (pyStrip text) size overlap start
          = ((pyStrip text).drop start).take size
            :: splitLoopFuel fuel (pyStrip text) size overlap
                 (start + (size - overlap)))
    ∧ (∀ fuel, splitLoopFuel fuel (("AB").data) 1 1 0
        = List.replicate fuel [ 'A' ]) := by
  refine ⟨?_, by omega, ?_, ?_⟩
  · intro fuel hf
    unfold split_text
    by_cases hE : (pyStrip text).isEmpty
    · have h0 : (pyStrip text).length = 0 := by
        cases h' : pyStrip text with
        | nil => simp
        | cons c cs => rw [h'] at hE; simp at hE
      simp only [hE, if_pos]
      cases fuel with
      | zero => rfl
      | succ f => rw [splitLoopFuel, if_neg (by omega)]
    · have hn : 0 < (pyStrip text).length := by
        cases h' : pyStrip text with
        | nil => rw [h'] at hE; simp at hE
        | cons c cs => simp [h']
      simp only [hE, Bool.false_eq_true, if_neg, if_false]
      rw [splitLoopFuel_eq_refWindows (pyStrip text) size overlap hs ho
            fuel 0 (by omega) hn,
          splitLoopFuel_eq_refWindows (pyStrip text) size overlap hs ho
            (pyStrip text).length 0 (by omega) hn]
  · intro fuel start hlt
    rw [splitLoopFuel, if_pos (by omega)]
    have hmin : min (start + size) (pyStrip text).length = start + size := by
      omega
    rw [hmin, if_neg (by omega)]
    have h1 : start + size - start = size := by omega
    have h2 : start + size - overlap = start + (size - overlap) := by omega
    rw [h1, h2]
  · intro fuel
    induction fuel with
    | zero => rfl
    | succ f ih =>
      rw [List.replicate_succ, ← ih]
      rfl

/-- Witness for C7 at text "ABCDEFGHIJ", size 4, overlap 1, fuel 20. -/
theorem C7_split_terminates_witness :
    splitLoopFuel 20 (pyStrip (("ABCDEFGHIJ").data)) 4 1 0
      = split_text (("ABCDEFGHIJ").data) 4 1
    ∧ 0 < 4 - 1 := by
  have h := C7_split_terminates (("ABCDEFGHIJ").data) 4 1 (by omega) (by omega)
  exact ⟨h.1 20 (by decide), h.2.1⟩

/-- C5: the embedder makes at most 3 service calls, sleeps linearly
increasing backoff (0.6s times the 1-based attempt number, recorded in
tenths of a second) between attempts, propagates the last failure when
all three attempts fail, and returns the first successful vector making
no further attempts. -/
theorem C5_embed_retry {ε α : Type} (svc : Nat → Except ε α) :
    (get_embedding_run svc).calls ≤ 3
    ∧ (get_embedding_run svc).sleeps
        = (List.range ((get_embedding_run svc).calls - 1)).map (fun a => 6 * (a + 1))
    ∧ (∀ e0 e1 e2, svc 0 = .error e0 → svc 1 = .error e1 → svc 2 = .error e2 →
        (get_embedding_run svc).result = .error e2)
    ∧ (∀ k v, k < 3 → svc k = .ok v → (∀ j, j < k → ∃ e, svc j = .error e) →
        (get_embedding_run svc).result = .ok v
          ∧ (get_embedding_run svc).calls = k + 1) := by
  rcases h0 : svc 0 with e0' | v0 <;>
    [rcases h1 : svc 1 with e1' | v1 <;>
      [rcases h2 : svc 2 with e2' | v2; skip]; skip] <;>
  · simp only [get_embedding_run, h0]
    try simp only [h1]
    try simp only [h2]
    refine ⟨by decide, by decide, ?_, ?_⟩
    · intro e0 e1 e2 hh0 hh1 hh2
      simp_all
    · intro k v hk hok hprev
      interval_cases k
      · simp_all
      · obtain ⟨ea, hea⟩ := hprev 0 (by omega)
        simp_all
      · obtain ⟨ea, hea⟩ := hprev 0 (by omega)
        obtain ⟨eb, heb⟩ := hprev 1 (by omega)
        simp_all

/-- Witness for C5: with a first failed call and a successful second
call, the run returns the vector of the second call after exactly two
calls. -/
theorem C5_embed_retry_witness :
    (get_embedding_run svcFailThenOk).result = .ok 42
    ∧ (get_embedding_run svcFailThenOk).calls = 2 :=
  (C5_embed_retry svcFailThenOk).2.2.2 1 42 (by omega) rfl
    (fun j hj => by interval_cases j; exact ⟨("fail").data, rfl⟩)

/-- C3 counterexample: the Retriever error sentinel with an empty error
message (a dict that does have an `error` key) makes the Composer fall
past its truthiness guard and raise a TypeError at `docs[:8]`, instead of
returning the promised error answer. -/
theorem C3_sentinel_counterexample :
    answer_with_gpt chatOK (("q").data) (SearchResult.errorDict [] 500)
      = .error typeErrorMsg := rfl

/-- C3 (amended): given the Retriever error sentinel with a NON-EMPTY
error message, the Composer returns an answer stating the search error,
reference none and confidence 0, and makes no completion-service call. -/
theorem C3_sentinel_no_completion
    (chat : List Char → List Char → Except (List Char) (List Char))
    (query e : List Char) (code : Nat) (h : e ≠ []) :
    answer_with_gpt chat query (SearchResult.errorDict e code)
      = .ok ⟨("Azure Search Error: ").data ++ e, none, 0, 0, []⟩ :=
  answer_with_gpt_errorDict chat query e code h

/-- Witness for C3 at the sentinel with error text "boom". -/
theorem C3_sentinel_no_completion_witness :
    answer_with_gpt chatOK (("q").data)
        (SearchResult.errorDict (("boom").data) 500)
      = .ok ⟨("Azure Search Error: ").data ++ ("boom").data, none, 0, 0, []⟩ :=
  C3_sentinel_no_completion chatOK (("q").data) (("boom").data) 500 (by decide)

/-- Helper: every element of `x :: xs` is bounded by `xs.foldl max x`. -/
theorem mem_le_foldl_max (x : ℚ) (xs : List ℚ) :
    ∀ y ∈ x :: xs, y ≤ xs.foldl max x := by
  induction xs generalizing x with
  | nil =>
    intro y hy
    simp only [List.mem_singleton] at hy
    simp [hy]
  | cons z zs ih =>
    intro y hy
    simp only [List.foldl_cons]
    rcases List.mem_cons.mp hy with hyx | hy'
    · rw [hyx]
      exact le_trans (le_max_left x z)
        (ih (max x z) (max x z) (List.mem_cons_self _ _))
    · rcases List.mem_cons.mp hy' with hyz | hyzs
      · rw [hyz]
        exact le_trans (le_max_right x z)
          (ih (max x z) (max x z) (List.mem_cons_self _ _))
      · exact ih (max x z) y (List.mem_cons_of_mem _ hyzs)

/-- Helper: the score of every hit is bounded by `maxScore`. -/
theorem score_le_maxScore (d : Doc) (ds : List Doc) :
    ∀ x ∈ d :: ds, x.score.getD 0 ≤ maxScore (d :: ds) := by
  intro x hx
  have hmem : x.score.getD 0 ∈
      (d.score.getD 0) :: ds.map (fun y => y.score.getD 0) := by
    have : x.score.getD 0 ∈ (d :: ds).map (fun y => y.score.getD 0) :=
      List.mem_map_of_mem _ hx
    simpa using this
  have h := mem_le_foldl_max (d.score.getD 0)
    (ds.map (fun y => y.score.getD 0)) (x.score.getD 0) hmem
  simpa [maxScore] using h

/-- Helper: the score of the first hit is bounded by `maxScore`. -/
theorem rawScore_le_maxScore (d : Doc) (ds : List Doc) :
    rawScore (d :: ds) ≤ maxScore (d :: ds) := by
  have h := score_le_maxScore d ds d (List.mem_cons_self _ _)
  simpa [rawScore] using h

/-- C8 counterexample: a single hit whose only score is 0 is both the
first-ranked hit and the maximum of the set, all scores are non-negative,
yet the computed confidence is 0, not 100 (the `or 1` default kicks in
and 0/1 truncates to 0). -/
theorem C8_all_zero_counterexample :
    rawScore [docZero] = maxScore [docZero]
    ∧ ([docZero].map (fun x => x.score.getD 0)) = [0]
    ∧ confidenceOf [docZero] = 0
    ∧ ((0 : ℤ) ≠ 100) := by
  refine ⟨rfl, rfl, ?_, by decide⟩
  show pyInt (rawScore [docZero] / maxScoreOr1 [docZero] * 100) = 0
  have h1 : rawScore [docZero] = 0 := rfl
  have h2 : maxScoreOr1 [docZero] = 1 := rfl
  rw [h1, h2]
  norm_num [pyInt]

/-- C8 (amended): for any non-empty hit set with non-negative scores the
confidence lies in [0, 100], and it equals 100 when the first-ranked
score of the first-ranked hit is the maximum AND that maximum is positive (for an all-zero
set the division-by-zero default makes the confidence 0 instead). -/
theorem C8_confidence_bounds (d : Doc) (ds : List Doc)
    (hn : ∀ x ∈ d :: ds, 0 ≤ x.score.getD 0) :
    0 ≤ confidenceOf (d :: ds) ∧ confidenceOf (d :: ds) ≤ 100
    ∧ (rawScore (d :: ds) = maxScore (d :: ds) → 0 < maxScore (d :: ds) →
        confidenceOf (d :: ds) = 100) := by
  have hraw0 : 0 ≤ rawScore (d :: ds) := by
    have := hn d (List.mem_cons_self _ _)
    simpa [rawScore] using this
  have hrm : rawScore (d :: ds) ≤ maxScore (d :: ds) := rawScore_le_maxScore d ds
  by_cases hm : maxScore (d :: ds) = 0
  · have hraw : rawScore (d :: ds) = 0 := le_antisymm (hm ▸ hrm) hraw0
    have hconf : confidenceOf (d :: ds) = 0 := by
      unfold confidenceOf maxScoreOr1
      rw [if_pos hm, hraw]
      norm_num [pyInt]
    refine ⟨by omega, by omega, ?_⟩
    intro _ hpos
    exact absurd (hm ▸ hpos) (lt_irrefl 0)
  · have hmpos : 0 < maxScore (d :: ds) :=
      lt_of_le_of_ne (le_trans hraw0 hrm) (Ne.symm hm)
    have hq0 : 0 ≤ rawScore (d :: ds) / maxScore (d :: ds) * 100 := by positivity
    have hq100 : rawScore (d :: ds) / maxScore (d :: ds) * 100 ≤ 100 := by
      have hle1 : rawScore (d :: ds) / maxScore (d :: ds) ≤ 1 :=
        (div_le_one hmpos).mpr hrm
      calc rawScore (d :: ds) / maxScore (d :: ds) * 100
          ≤ 1 * 100 := by
            exact mul_le_mul_of_nonneg_right hle1 (by norm_num)
        _ = 100 := by norm_num
    have hconf : confidenceOf (d :: ds)
        = ⌊rawScore (d :: ds) / maxScore (d :: ds) * 100⌋ := by
      unfold confidenceOf maxScoreOr1
      rw [if_neg hm, pyInt, if_pos hq0]
    refine ⟨?_, ?_, ?_⟩
    · rw [hconf]
      exact Int.le_floor.mpr (by exact_mod_cast hq0)
    · rw [hconf]
      calc ⌊rawScore (d :: ds) / maxScore (d :: ds) * 100⌋
          ≤ ⌊(100 : ℚ)⌋ := Int.floor_le_floor hq100
        _ = 100 := by norm_num
    · intro heq hpos
      rw [hconf, heq, div_self hm]
      norm_num

/-- Witness for C8 at the single hit with score 1. -/
theorem C8_confidence_bounds_witness :
    0 ≤ confidenceOf [docScore 1] ∧ confidenceOf [docScore 1] ≤ 100 :=
  ⟨(C8_confidence_bounds (docScore 1) [] (by decide)).1,
   (C8_confidence_bounds (docScore 1) [] (by decide)).2.1⟩

/-- C2 counterexample: with hits scored 2 and 3 the Composer returns
confidence `int(2/3 * 100) = 66`, while `round(2/3 * 100) = 67`; the
code truncates, it does not round. -/
theorem C2_round_counterexample :
    (answer_with_gpt chatOK (("q").data)
        (SearchResult.hits docsTwoThree)).toOption.map ComposeResult.confidence
      = some 66
    ∧ round ((2 : ℚ) / 3 * 100) = 67
    ∧ ((66 : ℤ) ≠ 67) := by
  refine ⟨?_, ?_, by decide⟩
  · have h := answer_with_gpt_cons chatOK (("q").data) (docScore 2) [docScore 3]
      (("answer").data) rfl
    rw [show SearchResult.hits docsTwoThree
          = SearchResult.hits (docScore 2 :: [docScore 3]) from rfl]
    have hc : confidenceOf (docScore 2 :: [docScore 3]) = 66 := by
      show pyInt (rawScore (docScore 2 :: [docScore 3])
        / maxScoreOr1 (docScore 2 :: [docScore 3]) * 100) = 66
      have h1 : rawScore (docScore 2 :: [docScore 3]) = 2 := rfl
      have h2 : maxScoreOr1 (docScore 2 :: [docScore 3]) = 3 := by
        show (if maxScore (docScore 2 :: [docScore 3]) = 0 then 1
          else maxScore (docScore 2 :: [docScore 3])) = 3
        norm_num [maxScore, docScore]
      rw [h1, h2, pyInt, if_pos (by norm_num)]
      rw [Int.floor_eq_iff]
      constructor
      · norm_num
      · norm_num
    rw [h, hc]
    rfl
  · rw [round_eq, Int.floor_eq_iff]
    constructor
    · norm_num
    · norm_num

/-- C2 (amended): for every non-empty, non-error hit list (and a
completion service that answers), the confidence the Composer returns is
`int(raw_score / max_score * 100)` — truncation toward zero, which for
non-negative scores is the floor of `raw_score / max_score * 100`, not
its rounding. -/
theorem C2_confidence_truncates
    (chat : List Char → List Char → Except (List Char) (List Char))
    (q : List Char) (d : Doc) (ds : List Doc)
    (hchat : ∀ s u, ∃ a, chat s u = Except.ok a) :
    ∃ r, answer_with_gpt chat q (SearchResult.hits (d :: ds)) = Except.ok r
      ∧ r.confidence = pyInt (rawScore (d :: ds) / maxScoreOr1 (d :: ds) * 100)
      ∧ ((∀ x ∈ d :: ds, 0 ≤ x.score.getD 0) →
          r.confidence = ⌊rawScore (d :: ds) / maxScoreOr1 (d :: ds) * 100⌋) := by
  obtain ⟨a, ha⟩ := hchat sysPrecise (mainPrompt
    (List.intercalate (("\n\n").data) (((d :: ds).take 8).map sourceBlock)) q)
  refine ⟨_, answer_with_gpt_cons chat q d ds a ha, rfl, ?_⟩
  intro hn
  have hraw0 : 0 ≤ rawScore (d :: ds) := by
    have := hn d (List.mem_cons_self _ _)
    simpa [rawScore] using this
  have hrm : rawScore (d :: ds) ≤ maxScore (d :: ds) := rawScore_le_maxScore d ds
  have hden : 0 < maxScoreOr1 (d :: ds) := by
    unfold maxScoreOr1
    by_cases hm : maxScore (d :: ds) = 0
    · rw [if_pos hm]; norm_num
    · rw [if_neg hm]
      exact lt_of_le_of_ne (le_trans hraw0 hrm) (Ne.symm hm)
  have hq0 : 0 ≤ rawScore (d :: ds) / maxScoreOr1 (d :: ds) * 100 := by positivity
  show pyInt (rawScore (d :: ds) / maxScoreOr1 (d :: ds) * 100)
      = ⌊rawScore (d :: ds) / maxScoreOr1 (d :: ds) * 100⌋
  rw [pyInt, if_pos hq0]

/-- Witness for C2 at the single zero-scored hit and the always-answering
completion oracle. -/
theorem C2_confidence_truncates_witness :
    ∃ r, answer_with_gpt chatOK (("q").data) (SearchResult.hits [docZero])
        = Except.ok r
      ∧ r.confidence = pyInt (rawScore [docZero] / maxScoreOr1 [docZero] * 100) := by
  obtain ⟨r, h1, h2, _⟩ := C2_confidence_truncates chatOK (("q").data) docZero []
    (fun s u => ⟨("answer").data, rfl⟩)
  exact ⟨r, h1, h2⟩

/-- Helper: indexing into a take-prefix below the cut agrees with
indexing into the list. -/
theorem getD_take_of_lt {α : Type} (l : List α) (n i : Nat) (x : α)
    (h : i < n) : (l.take n).getD i x = l.getD i x := by
  induction l generalizing n i with
  | nil => simp
  | cons a as ih =>
    cases n with
    | zero => omega
    | succ n =>
      cases i with
      | zero => simp
      | succ i =>
        simp only [List.take_succ_cons, List.getD_cons_succ]
        exact ih n i (by omega)

/-- C4: for every non-empty, non-error hit list (and a completion
service that answers), the grounding context is the blocks of exactly the
first min(8, length) hits, in Retriever order, concatenated with a
blank-line separator; each block carries folder, file and page and the
chunk text truncated to at most 1200 characters, a chunk of at least
1200 characters contributing exactly 1200; with 12 hits exactly the
first 8 appear. -/
theorem C4_context_assembly
    (chat : List Char → List Char → Except (List Char) (List Char))
    (q : List Char) (d : Doc) (ds : List Doc)
    (hchat : ∀ s u, ∃ a, chat s u = Except.ok a) :
    ∃ r, answer_with_gpt chat q (SearchResult.hits (d :: ds)) = Except.ok r
      ∧ r.context
          = List.intercalate (("\n\n").data) (((d :: ds).take 8).map sourceBlock)
      ∧ ((d :: ds).take 8).length = min 8 (d :: ds).length
      ∧ (∀ i, i < min 8 (d :: ds).length →
          ((d :: ds).take 8).getD i docZero = (d :: ds).getD i docZero)
      ∧ (∀ x : Doc, ((x.chunk.getD []).take 1200).length
          = min (x.chunk.getD []).length 1200)
      ∧ (∀ x : Doc, sourceBlock x
          = ("[Source: ").data ++ x.folder.getD [] ++ [ '/' ] ++ x.file.getD []
            ++ (" | Page ").data ++ x.page.getD [] ++ ("]\n").data
            ++ (x.chunk.getD []).take 1200)
      ∧ ((d :: ds).length = 12 → ((d :: ds).take 8).length = 8) := by
  obtain ⟨a, ha⟩ := hchat sysPrecise (mainPrompt
    (List.intercalate (("\n\n").data) (((d :: ds).take 8).map sourceBlock)) q)
  refine ⟨_, answer_with_gpt_cons chat q d ds a ha, rfl, ?_, ?_, ?_, ?_, ?_⟩
  · rw [List.length_take]
  · intro i hi
    exact getD_take_of_lt (d :: ds) 8 i docZero (by omega)
  · intro x
    rw [List.length_take, Nat.min_comm]
  · intro x
    rfl
  · intro h12
    rw [List.length_take, h12]
    rfl

/-- Witness for C4 at the singleton hit list. -/
theorem C4_context_assembly_witness :
    ∃ r, answer_with_gpt chatOK (("q").data) (SearchResult.hits [docZero])
        = Except.ok r
      ∧ r.context
          = List.intercalate (("\n\n").data) (([docZero].take 8).map sourceBlock) := by
  obtain ⟨r, h1, h2, _⟩ := C4_context_assembly chatOK (("q").data) docZero []
    (fun s u => ⟨("answer").data, rfl⟩)
  exact ⟨r, h1, h2⟩

/-- C6 counterexample: when the embedding call raises, the `ask` handler
propagates the exception and returns no body at all — the claim that the
ask surface never raises an unhandled fault fails. -/
theorem C6_embed_failure_counterexample :
    ask (Except.error (("embedding failure").data)) postOK chatOK (("q").data)
      = Except.error (("embedding failure").data) := rfl

/-- C6 (amended): the ask surface returns a body (which carries answer,
reference and confidence fields) provided the embedding call succeeds,
the search HTTP call itself succeeds — with parseable JSON on a success
status, or a non-empty error body on an error status — and the
completion call succeeds; a failure of the embedding call, of the HTTP
transport, of JSON parsing, or of the completion call propagates as an
unhandled fault instead. -/
theorem C6_ask_returns_body
    (embed : Except (List Char) (List ℚ)) (post : Except (List Char) HTTPResp)
    (chat : List Char → List Char → Except (List Char) (List Char))
    (q : List Char) (vec : List ℚ) (r : HTTPResp)
    (he : embed = Except.ok vec) (hp : post = Except.ok r)
    (htext : 400 ≤ r.status ∧ r.status < 600 → r.text ≠ [])
    (hjson : ¬(400 ≤ r.status ∧ r.status < 600) → ∃ vals, r.jsonValues = some vals)
    (hchat : ∀ s u, ∃ a, chat s u = Except.ok a) :
    ∃ b, ask embed post chat q = Except.ok b := by
  subst he hp
  simp only [ask, search_docs]
  by_cases hs : 400 ≤ r.status ∧ r.status < 600
  · rw [if_pos hs]
    simp only [answer_with_gpt_errorDict chat q r.text r.status (htext hs)]
    exact ⟨_, rfl⟩
  · rw [if_neg hs]
    obtain ⟨vals, hv⟩ := hjson hs
    rw [hv]
    cases vals with
    | nil =>
      obtain ⟨a, ha⟩ := hchat sysHelpful (noDocsPrompt q)
      simp only [answer_with_gpt_nil chat q a ha]
      exact ⟨_, rfl⟩
    | cons d ds =>
      obtain ⟨a, ha⟩ := hchat sysPrecise (mainPrompt
        (List.intercalate (("\n\n").data) (((d :: ds).take 8).map sourceBlock)) q)
      simp only [answer_with_gpt_cons chat q d ds a ha]
      exact ⟨_, rfl⟩

/-- Witness for C6 at a successful embedding, a 200 response with no
hits, and the always-answering completion oracle. -/
theorem C6_ask_returns_body_witness :
    ∃ b, ask embedOK postOK chatOK (("q").data) = Except.ok b :=
  C6_ask_returns_body embedOK postOK chatOK (("q").data) []
    ⟨200, ("ok").data, some [], ("http error").data, ("json error").data⟩
    rfl rfl (fun h => absurd h (by decide))
    (fun _ => ⟨[], rfl⟩) (fun s u => ⟨("answer").data, rfl⟩)

/-- C9 counterexample: in `inspect_pdf` the `requests.post` call sits
outside the try block, so a failure of the index-service call itself
propagates as an unhandled fault instead of being converted into an
error-shaped body. -/
theorem C9_inspect_post_counterexample :
    inspect_pdf (Except.error (("connection error").data)) (("a.pdf").data)
      = Except.error (("connection error").data) := rfl

/-- C9 (amended): the list surface catches every underlying failure and
returns the `error`-shaped body with empty/zero payload fields, and the
inspect surface does so for every failure occurring after the HTTP call
returns (error status, JSON parse failure) — but an exception raised by
the inspect HTTP call itself propagates unhandled. -/
theorem C9_list_inspect_degrade (account container : List Char) :
    (∀ e, list_cloud_pdfs account container (Except.error e) = ⟨some e, [], 0⟩)
    ∧ (∀ bs, (list_cloud_pdfs account container (Except.ok bs)).error = none)
    ∧ (∀ e p, inspect_pdf (Except.error e) p = Except.error e)
    ∧ (∀ r p, 400 ≤ r.status ∧ r.status < 600 →
        inspect_pdf (Except.ok r) p = Except.ok ⟨p, 0, [], some r.httpErrMsg⟩)
    ∧ (∀ r p, ¬(400 ≤ r.status ∧ r.status < 600) → r.jsonValues = none →
        inspect_pdf (Except.ok r) p = Except.ok ⟨p, 0, [], some r.jsonErrMsg⟩) := by
  refine ⟨fun e => rfl, fun bs => rfl, fun e p => rfl, ?_, ?_⟩
  · intro r p hs
    simp only [inspect_pdf]
    rw [if_pos hs]
  · intro r p hs hj
    simp only [inspect_pdf]
    rw [if_neg hs, hj]

/-- Witness for C9: a 500 response to inspect is converted into the
error-shaped body, and a blob-service failure in list is converted into
the error body with empty payload. -/
theorem C9_list_inspect_degrade_witness :
    inspect_pdf (Except.ok respErr500) (("x.pdf").data)
      = Except.ok ⟨("x.pdf").data, 0, [], some respErr500.httpErrMsg⟩
    ∧ list_cloud_pdfs (("acct").data) (("cont").data)
        (Except.error (("boom").data))
      = ⟨some (("boom").data), [], 0⟩ := by
  have h := C9_list_inspect_degrade (("acct").data) (("cont").data)
  exact ⟨h.2.2.2.1 respErr500 (("x.pdf").data) (by decide), h.1 (("boom").data)⟩

/-- C10 counterexample: when the search step returns the error sentinel
with an empty error message, the Composer raises a TypeError before
`hits` is ever attached, so the request produces no `hits` field at
all. -/
theorem C10_hits_counterexample :
    ask embedOK postErrEmptyText chatOK (("q").data)
      = Except.error typeErrorMsg := rfl

/-- C10 (amended): the `hits` field is `len` of the value returned by the
search step; when the search step returns the error sentinel with a
non-empty error message, `hits` is 2 — the key count of the sentinel dict —
rather than 0 or a document count (with an empty error message the
Composer raises before `hits` is set); in the non-error case `hits` is
the number of retrieved documents. -/
theorem C10_hits_is_pylen
    (embed : Except (List Char) (List ℚ)) (post : Except (List Char) HTTPResp)
    (chat : List Char → List Char → Except (List Char) (List Char))
    (q : List Char) (vec : List ℚ) (r : HTTPResp)
    (he : embed = Except.ok vec) (hp : post = Except.ok r) :
    (400 ≤ r.status ∧ r.status < 600 → r.text ≠ [] →
      ∃ b, ask embed post chat q = Except.ok b
        ∧ b.hits = 2
        ∧ pyLen (SearchResult.errorDict r.text r.status) = 2)
    ∧ (∀ vals, ¬(400 ≤ r.status ∧ r.status < 600) → r.jsonValues = some vals →
        (∀ s u, ∃ a, chat s u = Except.ok a) →
        ∃ b, ask embed post chat q = Except.ok b ∧ b.hits = vals.length) := by
  subst he hp
  constructor
  · intro hs htext
    simp only [ask, search_docs]
    rw [if_pos hs]
    simp only [answer_with_gpt_errorDict chat q r.text r.status htext]
    exact ⟨_, rfl, rfl, rfl⟩
  · intro vals hs hv hchat
    simp only [ask, search_docs]
    rw [if_neg hs, hv]
    cases vals with
    | nil =>
      obtain ⟨a, ha⟩ := hchat sysHelpful (noDocsPrompt q)
      simp only [answer_with_gpt_nil chat q a ha]
      exact ⟨_, rfl, rfl⟩
    | cons d ds =>
      obtain ⟨a, ha⟩ := hchat sysPrecise (mainPrompt
        (List.intercalate (("\n\n").data) (((d :: ds).take 8).map sourceBlock)) q)
      simp only [answer_with_gpt_cons chat q d ds a ha]
      exact ⟨_, rfl, rfl⟩

/-- Witness for C10: a 500 response with non-empty body leads to a
returned body whose `hits` field is 2. -/
theorem C10_hits_is_pylen_witness :
    ∃ b, ask embedOK postErr500 chatOK (("q").data) = Except.ok b
      ∧ b.hits = 2
      ∧ pyLen (SearchResult.errorDict (("server error").data) 500) = 2 :=
  (C10_hits_is_pylen embedOK postErr500 chatOK (("q").data) []
    ⟨500, ("server error").data, none, ("http error").data, ("json error").data⟩
    rfl rfl).1 (by decide) (by decide)
